import Mathlib

/-!
# Verification of the Cognitor CMS frontend services

A shallow embedding, in Lean 4, of the pure computational core of the
CMS frontend (TypeScript).  Conventions used throughout:

* JavaScript strings are Lean `String`s, but all operations on them are
  re-implemented over `String.data : List Char` so that every definition
  evaluates inside the kernel.
* JavaScript `undefined`/missing values are `Option`; JS truthiness of a
  string is "non-empty", of a number is "non-zero", of an array or object
  is always true.  `x || d` on strings/numbers is `jsOrStr`/`jsOrNat`.
* `async` functions performing network calls are embedded as pure
  functions taking the outcome of each call as an explicit argument
  (`Except Unit _`, where `.error` models a thrown exception).  Functions
  whose claims concern *which* calls are made additionally return a small
  trace recording the calls issued.
* Objects read back from JSON are embedded as structures holding exactly
  the fields the code reads.
-/

/-! ## JavaScript-style string primitives (over `List Char`) -/

/-- JS truthiness of a string: `s` is truthy iff non-empty. -/
def strTruthy (s : String) : Bool := s ≠ ""

/-- JS `a || d` for strings. -/
def jsOrStr (s d : String) : String := if s = "" then d else s

/-- JS `o || d` where `o` may be `undefined`. -/
def jsOrOptStr (o : Option String) (d : String) : String :=
  match o with
  | some s => jsOrStr s d
  | none => d

/-- JS `o || d` for an optional number (`0` and `undefined` are falsy). -/
def jsOrNat (o : Option Nat) (d : Nat) : Nat :=
  match o with
  | some n => if n = 0 then d else n
  | none => d

/-- Splitting a character list at every occurrence of `sep` (JS
`String.prototype.split` with a single-character separator; the empty
string yields `[[]]`). -/
def splitCharsAux (sep : Char) : List Char → List (List Char)
  | [] => [[]]
  | c :: rest =>
    if c = sep then [] :: splitCharsAux sep rest
    else
      match splitCharsAux sep rest with
      | [] => [[c]]
      | g :: gs => (c :: g) :: gs

/-- JS `s.split(sep)` for a one-character separator. -/
def jsSplitChar (sep : Char) (s : String) : List String :=
  (splitCharsAux sep s.data).map String.mk

/-- JS `Array.prototype.join(sep)`. -/
def joinSep (sep : String) : List String → String
  | [] => ""
  | [s] => s
  | s :: rest => s ++ sep ++ joinSep sep rest

/-- JS whitespace recognised by `trim` (ASCII fragment). -/
def isJsWhitespace (c : Char) : Bool :=
  c = ' ' || c = '\t' || c = '\n' || c = '\r'

/-- JS `s.trim()`. -/
def jsTrim (s : String) : String :=
  String.mk (((s.data.dropWhile isJsWhitespace).reverse.dropWhile isJsWhitespace).reverse)

/-- JS `s.toLowerCase()` (ASCII fragment). -/
def jsToLower (s : String) : String := String.mk (s.data.map Char.toLower)

/-- Does `need` occur as a contiguous subsequence of `hay`? -/
def containsSeq (hay need : List Char) : Bool :=
  match hay with
  | [] => need.isEmpty
  | _ :: t => need.isPrefixOf hay || containsSeq t need

/-- JS `s.includes(sub)`. -/
def jsIncludes (s sub : String) : Bool := containsSeq s.data sub.data

/-- JS `s.startsWith(p)`. -/
def jsStartsWith (s p : String) : Bool := p.data.isPrefixOf s.data

/-- Association-list update, replacing the first binding of `k`
(`Map.prototype.set`). -/
def assocSet {α : Type} (k : String) (v : α) : List (String × α) → List (String × α)
  | [] => [(k, v)]
  | (k', w) :: rest => if k' = k then (k, v) :: rest else (k', w) :: assocSet k v rest

/-! ## Recent searches (src/lib/api/search.ts, `SearchService`)

`localStorage` is embedded as the stored list of terms; `saveRecentSearch`
is its pure state transformation and `getRecentSearches` its pure read. -/

/-- A search suggestion as produced by the service
(src/lib/types/cognitor.ts `SearchSuggestion`). -/
structure SearchSuggestion where
  id : Option String
  text : String
  type : String
  url : Option String
deriving DecidableEq, Repr

/-- `SearchService.saveRecentSearch` (search.ts lines 231-257): remove the
term, prepend it, keep the first `maxRecentSearches = 10`. -/
def saveRecentSearch (term : String) (recentSearches : List String) : List String :=
  let filtered := recentSearches.filter (fun s => s ≠ term)
  (term :: filtered).take 10

/-- `SearchService.getRecentSearches` (search.ts lines 208-226): first
`limit` stored terms, each wrapped as a suggestion of type `page`. -/
def getRecentSearches (limit : Nat) (stored : List String) : List SearchSuggestion :=
  (stored.take limit).map (fun t => { id := none, text := t, type := "page", url := none })

/-! ## Navigation (src/lib/api/navigation.ts, `NavigationService`) -/

/-- `NavigationItem` (src/lib/types/cognitor.ts lines 121-131).  Fields in
interface order; optional fields are `Option`. -/
inductive NavigationItem : Type where
  | mk (id : String) (title : String) (url : Option String) (slug : Option String)
      (external : Option Bool) (target : Option String)
      (children : Option (List NavigationItem)) (order : Nat) (isActive : Option Bool)

def NavigationItem.id : NavigationItem → String
  | .mk i _ _ _ _ _ _ _ _ => i

def NavigationItem.title : NavigationItem → String
  | .mk _ t _ _ _ _ _ _ _ => t

def NavigationItem.url : NavigationItem → Option String
  | .mk _ _ u _ _ _ _ _ _ => u

def NavigationItem.slug : NavigationItem → Option String
  | .mk _ _ _ s _ _ _ _ _ => s

def NavigationItem.external : NavigationItem → Option Bool
  | .mk _ _ _ _ e _ _ _ _ => e

def NavigationItem.target : NavigationItem → Option String
  | .mk _ _ _ _ _ t _ _ _ => t

def NavigationItem.children : NavigationItem → Option (List NavigationItem)
  | .mk _ _ _ _ _ _ c _ _ => c

def NavigationItem.order : NavigationItem → Nat
  | .mk _ _ _ _ _ _ _ o _ => o

def NavigationItem.isActive : NavigationItem → Option Bool
  | .mk _ _ _ _ _ _ _ _ a => a

/-- JS `word.charAt(0).toUpperCase() + word.slice(1)`. -/
def capitalizeWord (w : String) : String :=
  match w.data with
  | [] => ""
  | c :: cs => String.mk (c.toUpper :: cs)

/-- `NavigationService.formatSegmentTitle` (navigation.ts lines 125-130). -/
def formatSegmentTitle (segment : String) : String :=
  joinSep " " ((jsSplitChar '-' segment).map capitalizeWord)

/-- The `segments.forEach` loop of `generateFallbackBreadcrumbs`
(navigation.ts lines 107-116), with the accumulated `currentPath`, the
running `index` and the fixed `segments.length` made explicit. -/
def crumbsAux (total : Nat) : List String → String → Nat → List NavigationItem
  | [], _, _ => []
  | s :: rest, currentPath, index =>
    let cp := currentPath ++ "/" ++ s
    NavigationItem.mk ("breadcrumb-" ++ toString index) (formatSegmentTitle s)
        (some cp) none none none none (index + 1) (some (index == total - 1))
      :: crumbsAux total rest cp (index + 1)

/-- `NavigationService.generateFallbackBreadcrumbs` (navigation.ts lines
95-120). -/
def generateFallbackBreadcrumbs (path : String) : List NavigationItem :=
  let segments := (jsSplitChar '/' path).filter (fun s => s ≠ "")
  NavigationItem.mk "home" "Home" (some "/") none none none none 0
      (some (segments.length == 0))
    :: crumbsAux segments.length segments "" 0

/-- `NavigationService.isNavigationItemActive` (navigation.ts lines
163-174). -/
def isNavigationItemActive (item : NavigationItem) (currentPath : String) : Bool :=
  if item.url = some currentPath then true
  else if (match item.slug with
           | some s => strTruthy s && currentPath = "/" ++ s
           | none => false) then true
  else
    match item.url with
    | some u => strTruthy u && jsStartsWith currentPath u && u ≠ "/"
    | none => false

mutual

/-- The element-wise transformation of `markActiveNavigation`: the object
spread `{...item, isActive, children}` (navigation.ts lines 136-143). -/
def markOne (currentPath : String) : NavigationItem → NavigationItem
  | .mk id title url slug ext tgt children ord act =>
    NavigationItem.mk id title url slug ext tgt
      (markChildren currentPath children) ord
      (some (isNavigationItemActive (.mk id title url slug ext tgt children ord act) currentPath))

/-- `item.children ? markActiveNavigation(item.children, path) : undefined`. -/
def markChildren (currentPath : String) : Option (List NavigationItem) → Option (List NavigationItem)
  | none => none
  | some l => some (markList currentPath l)

/-- The `navigation.map` of `markActiveNavigation`, written as explicit
recursion. -/
def markList (currentPath : String) : List NavigationItem → List NavigationItem
  | [] => []
  | x :: xs => markOne currentPath x :: markList currentPath xs

end

/-- `NavigationService.markActiveNavigation` (navigation.ts lines 135-144). -/
def markActiveNavigation (navigation : List NavigationItem) (currentPath : String) :
    List NavigationItem :=
  markList currentPath navigation

/-! ## Theorems: recent searches (C8) -/

theorem saveRecentSearch_eq (term : String) (prev : List String) :
    saveRecentSearch term prev = term :: (prev.filter (fun s => s ≠ term)).take 9 := rfl

/-- C8: after `saveRecentSearch term`, the stored list has `term` at index
0, contains `term` exactly once, has length at most 10, and keeps the
remaining previously stored terms in their relative order; and
`getRecentSearches limit` returns at most `limit` entries which are exactly
the front of the stored list. -/
theorem saveRecentSearch_invariant (term : String) (prev : List String) (limit : Nat) :
    (saveRecentSearch term prev).head? = some term ∧
    (saveRecentSearch term prev).count term = 1 ∧
    (saveRecentSearch term prev).length ≤ 10 ∧
    (saveRecentSearch term prev).tail.Sublist prev ∧
    (getRecentSearches limit (saveRecentSearch term prev)).map (fun s => s.text)
      = (saveRecentSearch term prev).take limit ∧
    (getRecentSearches limit (saveRecentSearch term prev)).length ≤ limit := by
  rw [saveRecentSearch_eq]
  refine ⟨rfl, ?_, ?_, ?_, ?_, ?_⟩
  · have hnot : term ∉ (prev.filter (fun s => s ≠ term)).take 9 := by
      intro hmem
      have h2 := List.take_subset 9 _ hmem
      have h3 := (List.mem_filter.mp h2).2
      simp at h3
    rw [List.count_cons_self, List.count_eq_zero.mpr hnot]
  · have := List.length_take_le 9 (prev.filter (fun s => s ≠ term))
    simp only [List.length_cons]
    omega
  · exact ((List.take_sublist 9 _).trans (List.filter_sublist prev))
  · simp only [getRecentSearches, List.map_map]
    have hcomp : ((fun s : SearchSuggestion => s.text) ∘
        fun t => ({ id := none, text := t, type := "page", url := none } : SearchSuggestion))
        = fun t => t := rfl
    rw [hcomp, List.map_id']
  · simp only [getRecentSearches, List.length_map, List.length_take]
    exact Nat.min_le_left _ _

/-! ## Theorems: fallback breadcrumbs (C9) -/

theorem strAppend_assoc (a b c : String) : a ++ b ++ c = a ++ (b ++ c) := by
  apply String.ext
  simp [String.data_append, List.append_assoc]

theorem strNil_append (a : String) : "" ++ a = a := by
  apply String.ext
  simp [String.data_append]

theorem joinSep_cons (sep s : String) (l : List String) (h : l ≠ []) :
    joinSep sep (s :: l) = s ++ sep ++ joinSep sep l := by
  cases l with
  | nil => exact absurd rfl h
  | cons x xs => rfl

theorem crumbsAux_length (total : Nat) (segs : List String) (cp : String) (k : Nat) :
    (crumbsAux total segs cp k).length = segs.length := by
  induction segs generalizing cp k with
  | nil => rfl
  | cons s rest ih => simp [crumbsAux, ih]

theorem crumbsAux_get? (total : Nat) (segs : List String) (cp : String) (k j : Nat)
    (h : j < segs.length) :
    ∃ title, (crumbsAux total segs cp k).get? j
      = some (NavigationItem.mk ("breadcrumb-" ++ toString (k + j)) title
          (some (cp ++ "/" ++ joinSep "/" (segs.take (j + 1)))) none none none none
          (k + j + 1) (some ((k + j) == total - 1))) := by
  induction segs generalizing cp k j with
  | nil => simp at h
  | cons s rest ih =>
    cases j with
    | zero =>
      refine ⟨formatSegmentTitle s, ?_⟩
      simp [crumbsAux, joinSep]
    | succ j' =>
      have h' : j' < rest.length := by
        simpa using Nat.lt_of_succ_lt_succ h
      obtain ⟨title, ht⟩ := ih (cp ++ "/" ++ s) (k + 1) j' h'
      refine ⟨title, ?_⟩
      simp only [crumbsAux, List.get?_cons_succ]
      rw [ht]
      have e1 : k + 1 + j' = k + (j' + 1) := by omega
      have e2 : rest.take (j' + 1) ≠ [] := by
        intro hnil
        rcases List.take_eq_nil_iff.mp hnil with h0 | h0
        · omega
        · rw [h0] at h'
          simp at h'
      rw [List.take_succ_cons, joinSep_cons _ _ _ e2, e1]
      simp [strAppend_assoc]

/-- C9: `generateFallbackBreadcrumbs` is fully determined by the path: with
`n` non-empty segments the result has `n + 1` items, the first is the Home
entry (url `/`, order 0, active iff `n = 0`), and the item at position
`i` (1 ≤ i ≤ n) has order `i`, url `/` followed by the first `i` segments
joined by `/`, and is active exactly when it is the last item. -/
theorem generateFallbackBreadcrumbs_spec (path : String) :
    (generateFallbackBreadcrumbs path).length
        = ((jsSplitChar '/' path).filter (fun s => s ≠ "")).length + 1 ∧
    (generateFallbackBreadcrumbs path).get? 0
        = some (NavigationItem.mk "home" "Home" (some "/") none none none none 0
            (some (((jsSplitChar '/' path).filter (fun s => s ≠ "")).length == 0))) ∧
    ∀ i, 1 ≤ i → i ≤ ((jsSplitChar '/' path).filter (fun s => s ≠ "")).length →
      ∃ item, (generateFallbackBreadcrumbs path).get? i = some item ∧
        item.url = some ("/" ++ joinSep "/"
            (((jsSplitChar '/' path).filter (fun s => s ≠ "")).take i)) ∧
        item.order = i ∧
        item.isActive
          = some (i == ((jsSplitChar '/' path).filter (fun s => s ≠ "")).length) := by
  refine ⟨?_, ?_, ?_⟩
  · simp [generateFallbackBreadcrumbs, crumbsAux_length]
  · rfl
  · intro i h1 h2
    obtain ⟨j, rfl⟩ : ∃ j, i = j + 1 := ⟨i - 1, by omega⟩
    have hj : j < ((jsSplitChar '/' path).filter (fun s => s ≠ "")).length := by omega
    obtain ⟨title, ht⟩ :=
      crumbsAux_get? ((jsSplitChar '/' path).filter (fun s => s ≠ "")).length
        ((jsSplitChar '/' path).filter (fun s => s ≠ "")) "" 0 j hj
    refine ⟨NavigationItem.mk ("breadcrumb-" ++ toString (0 + j)) title
        (some ("" ++ "/" ++ joinSep "/"
          (((jsSplitChar '/' path).filter (fun s => s ≠ "")).take (j + 1))))
        none none none none (0 + j + 1)
        (some ((0 + j) == ((jsSplitChar '/' path).filter (fun s => s ≠ "")).length - 1)),
      ?_, ?_, ?_, ?_⟩
    · show (generateFallbackBreadcrumbs path).get? (j + 1) = _
      simp only [generateFallbackBreadcrumbs, List.get?_cons_succ]
      exact ht
    · show (NavigationItem.mk _ _ _ _ _ _ _ _ _).url = _
      simp only [NavigationItem.url]
      rw [show ("" : String) ++ "/" ++ joinSep "/"
          (((jsSplitChar '/' path).filter (fun s => s ≠ "")).take (j + 1))
          = "/" ++ joinSep "/"
            (((jsSplitChar '/' path).filter (fun s => s ≠ "")).take (j + 1)) from
        strNil_append _]
    · show 0 + j + 1 = j + 1
      omega
    · show some ((0 + j) == ((jsSplitChar '/' path).filter (fun s => s ≠ "")).length - 1)
        = some ((j + 1) == ((jsSplitChar '/' path).filter (fun s => s ≠ "")).length)
      have hb : ((0 + j) == ((jsSplitChar '/' path).filter (fun s => s ≠ "")).length - 1)
          = ((j + 1) == ((jsSplitChar '/' path).filter (fun s => s ≠ "")).length) := by
        rw [Bool.eq_iff_iff]
        simp only [beq_iff_eq]
        omega
      rw [hb]

/-- Witness for C9 at the concrete path `/a/b`. -/
theorem generateFallbackBreadcrumbs_spec_witness :
    ∃ item, (generateFallbackBreadcrumbs "/a/b").get? 2 = some item ∧
      item.url = some ("/" ++ joinSep "/"
          (((jsSplitChar '/' "/a/b").filter (fun s => s ≠ "")).take 2)) ∧
      item.order = 2 ∧
      item.isActive
        = some ((2 : Nat) == ((jsSplitChar '/' "/a/b").filter (fun s => s ≠ "")).length) :=
  (generateFallbackBreadcrumbs_spec "/a/b").2.2 2 (by decide) (by decide)

/-! ## Theorems: marking active navigation (C10) -/

theorem markList_length (p : String) (nav : List NavigationItem) :
    (markList p nav).length = nav.length := by
  induction nav with
  | nil => rfl
  | cons x xs ih => simp [markList, ih]

theorem markList_get? (p : String) (nav : List NavigationItem) (i : Nat) :
    (markList p nav).get? i = (nav.get? i).map (markOne p) := by
  induction nav generalizing i with
  | nil => rfl
  | cons x xs ih =>
    cases i with
    | zero => rfl
    | succ i' => simpa [markList] using ih i'

/-- C10: `markActiveNavigation` changes only the `isActive` flags: the
result has the same length and order, each item agrees with its input on
every field other than `isActive` and `children`, and each `children` list
is transformed recursively by the same rule. -/
theorem markActiveNavigation_frame (nav : List NavigationItem) (p : String) :
    (markActiveNavigation nav p).length = nav.length ∧
    ∀ i item, nav.get? i = some item →
      (markActiveNavigation nav p).get? i = some (markOne p item) ∧
      (markOne p item).id = item.id ∧
      (markOne p item).title = item.title ∧
      (markOne p item).url = item.url ∧
      (markOne p item).slug = item.slug ∧
      (markOne p item).external = item.external ∧
      (markOne p item).target = item.target ∧
      (markOne p item).order = item.order ∧
      (markOne p item).children
        = item.children.map (fun cs => markActiveNavigation cs p) := by
  constructor
  · exact markList_length p nav
  · intro i item hi
    refine ⟨?_, ?_, ?_, ?_, ?_, ?_, ?_, ?_, ?_⟩
    · rw [markActiveNavigation, markList_get?, hi]
      rfl
    all_goals
      cases item with
      | mk id title url slug ext tgt children ord act =>
        cases children <;> rfl

/-- Witness for C10 on a concrete two-level navigation tree. -/
theorem markActiveNavigation_frame_witness :
    (markActiveNavigation
        [NavigationItem.mk "n1" "News" (some "/news") none none none
          (some [NavigationItem.mk "n2" "Latest" (some "/news/latest") none none none
            none 1 none]) 0 none] "/news").get? 0
      = some (markOne "/news"
          (NavigationItem.mk "n1" "News" (some "/news") none none none
            (some [NavigationItem.mk "n2" "Latest" (some "/news/latest") none none none
              none 1 none]) 0 none)) :=
  ((markActiveNavigation_frame
      [NavigationItem.mk "n1" "News" (some "/news") none none none
        (some [NavigationItem.mk "n2" "Latest" (some "/news/latest") none none none
          none 1 none]) 0 none] "/news").2 0
    (NavigationItem.mk "n1" "News" (some "/news") none none none
      (some [NavigationItem.mk "n2" "Latest" (some "/news/latest") none none none
        none 1 none]) 0 none) rfl).1

/-! ## API client (src/lib/api/client.ts, `CognitorApiClient`) -/

/-- A JSON value, for raw API response bodies. -/
inductive JVal : Type where
  | null
  | bool (b : Bool)
  | num (n : Int)
  | str (s : String)
  | arr (items : List JVal)
  | obj (fields : List (String × JVal))

/-- JS `s.slice(n)` for a non-negative start index. -/
def jsSliceFrom (n : Nat) (s : String) : String := String.mk (s.data.drop n)

/-- Reading an object field (`v[k]`), `none` for `undefined`. -/
def jGetField (v : JVal) (k : String) : Option JVal :=
  match v with
  | .obj fs => List.lookup k fs
  | _ => none

/-- Reading a string-valued field; missing or non-string is embedded as
the empty (falsy) string. -/
def jGetStr (v : JVal) (k : String) : String :=
  match jGetField v k with
  | some (.str s) => s
  | _ => ""

/-- `'data' in rawData` guarded by `rawData && typeof rawData === 'object'`. -/
def jvalHasData : JVal → Bool
  | .obj fs => fs.any (fun kv => kv.1 = "data")
  | _ => false

/-- `CognitorApiError` (client.ts lines 8-18): constructor argument order
`(statusCode, code, message, details?)`. -/
structure CognitorApiError where
  statusCode : Int
  code : String
  message : String
  details : Option JVal

/-- The fields of a `CognitorError` body the client reads
(src/lib/types/cognitor.ts lines 219-224). -/
structure CognitorErrorBody where
  code : String
  message : String
  details : Option JVal

/-- The part of a `fetch` `Response` the client reads.  `jsonBody` is the
outcome of `response.json()` (`.error msg` models a parse failure whose
exception carries `msg`). -/
structure FetchResponse where
  ok : Bool
  status : Int
  statusText : String
  jsonBody : Except String JVal

/-- The mutable state of `CognitorApiClient` (client.ts lines 28-38):
configuration plus the in-memory `rateLimitTracker` map
(endpoint → timestamp of last request, in ms). -/
structure CognitorApiClient where
  baseUrl : String
  siteId : String
  apiKey : Option String
  rateLimitTracker : List (String × Nat)

/-- `CognitorApiClient.checkRateLimit` (client.ts lines 50-62).  The
method's only exit paths are the early `return` (warn and continue) and
the tracker update; a `throw` would surface as `.error`, which never
occurs. -/
def checkRateLimit (now : Nat) (endpoint : String) (tracker : List (String × Nat)) :
    Except CognitorApiError (List (String × Nat)) :=
  let lastRequest := (List.lookup endpoint tracker).getD 0
  let timeDiff : Int := (now : Int) - (lastRequest : Int)
  if timeDiff < 1000 then .ok tracker
  else .ok (assocSet endpoint now tracker)

/-- `CognitorApiClient.buildUrl` (client.ts lines 67-92).  In the legacy
branch, `replace('search/', '')` removes the first occurrence of
`search/`, which under the branch guard is the leading 7 characters. -/
def buildUrl (baseUrl siteId endpoint : String) : String :=
  let cleanEndpoint := if jsStartsWith endpoint "/" then jsSliceFrom 1 endpoint else endpoint
  if jsStartsWith cleanEndpoint "search/sites/" then
    baseUrl ++ "/" ++ cleanEndpoint
  else if jsStartsWith cleanEndpoint "search/" then
    baseUrl ++ "/search/sites/" ++ siteId ++ "/" ++ jsSliceFrom 7 cleanEndpoint
  else if jsStartsWith cleanEndpoint "public/" then
    baseUrl ++ "/" ++ cleanEndpoint
  else
    baseUrl ++ "/public/" ++ siteId ++ "/" ++ cleanEndpoint

/-- `CognitorApiClient.getHeaders` (client.ts lines 97-110): base headers,
overridden by custom ones (object spread), then `Authorization` when an
API key is configured. -/
def getHeaders (apiKey : Option String) (customHeaders : List (String × String)) :
    List (String × String) :=
  let base := [("Content-Type", "application/json"), ("Accept", "application/json")]
  let headers := customHeaders.foldl (fun acc kv => assocSet kv.1 kv.2 acc) base
  match apiKey with
  | some k => if k ≠ "" then assocSet "Authorization" ("Bearer " ++ k) headers else headers
  | none => headers

/-- The response-shape normalisation of `request` (client.ts lines
186-221): a bare array is wrapped as a paginated `CognitorResponse`, an
object already containing `data` passes through, anything else is wrapped
as a plain success response. -/
def transformRawResponse (rawData : JVal) : JVal :=
  match rawData with
  | .arr items =>
    .obj [("success", .bool true),
      ("data", .obj [("items", .arr items), ("total", .num items.length),
        ("page", .num 1), ("limit", .num items.length),
        ("pagination", .obj [("page", .num 1), ("limit", .num items.length),
          ("total", .num items.length), ("totalPages", .num 1),
          ("hasNext", .bool false), ("hasPrev", .bool false)])]),
      ("message", .str "Success")]
  | v =>
    if jvalHasData v then v
    else .obj [("success", .bool true), ("data", v), ("message", .str "Success")]

/-- The `!response.ok` branch of `request` (client.ts lines 163-185):
parse the error body (falling back to an `UNKNOWN_ERROR` shape) and build
the thrown `CognitorApiError`. -/
def httpErrorOf (resp : FetchResponse) : CognitorApiError :=
  let errorData : CognitorErrorBody :=
    match resp.jsonBody with
    | .ok body => ⟨jGetStr body "code", jGetStr body "message", jGetField body "details"⟩
    | .error _ =>
      ⟨"UNKNOWN_ERROR", "HTTP " ++ toString resp.status ++ ": " ++ resp.statusText, none⟩
  ⟨resp.status, errorData.code,
    jsOrStr errorData.message ("HTTP " ++ toString resp.status ++ ": " ++ resp.statusText),
    errorData.details⟩

/-- The calls `request` issues, for the claims about its effects. -/
structure RequestTrace where
  url : String
  fetches : Nat
deriving DecidableEq, Repr

/-- `CognitorApiClient.request` (client.ts lines 114-243), embedded over a
fetch oracle: `fetchOracle i` is the outcome of the `i`-th `fetch` the
invocation would issue (`.error msg` models a network exception carrying
message `msg`).  Returns the result (`.error` models a thrown
`CognitorApiError`), the updated client state, and the trace of issued
fetches. -/
def request (client : CognitorApiClient) (now : Nat) (endpoint : String)
    (fetchOracle : Nat → Except String FetchResponse) :
    Except CognitorApiError JVal × CognitorApiClient × RequestTrace :=
  match checkRateLimit now endpoint client.rateLimitTracker with
  | .error e => (.error e, client, ⟨buildUrl client.baseUrl client.siteId endpoint, 0⟩)
  | .ok tracker' =>
    let client' := { client with rateLimitTracker := tracker' }
    let url := buildUrl client.baseUrl client.siteId endpoint
    let result : Except CognitorApiError JVal :=
      match fetchOracle 0 with
      | .error msg => .error ⟨0, "NETWORK_ERROR", msg, none⟩
      | .ok resp =>
        if resp.ok then
          match resp.jsonBody with
          | .error msg => .error ⟨0, "NETWORK_ERROR", msg, none⟩
          | .ok rawData => .ok (transformRawResponse rawData)
        else
          .error (httpErrorOf resp)
    (result, client', ⟨url, 1⟩)

/-! ## Theorems: rate limiter and request (C5, C6, C7) -/

theorem checkRateLimit_ok (now : Nat) (endpoint : String) (tracker : List (String × Nat)) :
    ∃ tracker', checkRateLimit now endpoint tracker = .ok tracker' := by
  by_cases h :
      (now : Int) - (((List.lookup endpoint tracker).getD 0 : Nat) : Int) < 1000
  · exact ⟨tracker, by simp [checkRateLimit, h]⟩
  · exact ⟨assocSet endpoint now tracker, by simp [checkRateLimit, h]⟩

theorem lookup_assocSet_ne {α : Type} (e' e : String) (v : α) (t : List (String × α))
    (h : e' ≠ e) : List.lookup e' (assocSet e v t) = List.lookup e' t := by
  have hb : (e' == e) = false := beq_eq_false_iff_ne.mpr h
  induction t with
  | nil => simp [assocSet, List.lookup, hb]
  | cons kv rest ih =>
    obtain ⟨k, w⟩ := kv
    by_cases hk : k = e
    · subst hk
      simp [assocSet, List.lookup, hb]
    · simp only [assocSet, if_neg hk]
      by_cases hk' : e' = k
      · subst hk'
        simp [List.lookup]
      · have hb' : (e' == k) = false := beq_eq_false_iff_ne.mpr hk'
        simp [List.lookup, hb', ih]

/-- C5: the rate limiter never blocks or rejects: `checkRateLimit` always
returns normally (never throws), and `request` always proceeds to issue
its single HTTP fetch, no matter how recent the previous request to the
same endpoint was. -/
theorem rateLimit_never_blocks (client : CognitorApiClient) (now : Nat) (endpoint : String)
    (tracker : List (String × Nat)) (fetchOracle : Nat → Except String FetchResponse) :
    (∃ tracker', checkRateLimit now endpoint tracker = .ok tracker') ∧
    (request client now endpoint fetchOracle).2.2.fetches = 1 := by
  refine ⟨checkRateLimit_ok now endpoint tracker, ?_⟩
  obtain ⟨t', ht⟩ := checkRateLimit_ok now endpoint client.rateLimitTracker
  simp [request, ht]

/-- C6: `request` retries nothing: one invocation issues exactly one
fetch, its outcome depends only on the first fetch result, and a network
failure or a non-ok status makes it throw a `CognitorApiError` (with the
response's status code) without any further fetch. -/
theorem request_no_retries (client : CognitorApiClient) (now : Nat) (endpoint : String)
    (fetchOracle : Nat → Except String FetchResponse) :
    (request client now endpoint fetchOracle).2.2.fetches = 1 ∧
    (∀ oracle2 : Nat → Except String FetchResponse, oracle2 0 = fetchOracle 0 →
        request client now endpoint oracle2 = request client now endpoint fetchOracle) ∧
    (∀ msg, fetchOracle 0 = .error msg →
        (request client now endpoint fetchOracle).1
          = .error ⟨0, "NETWORK_ERROR", msg, none⟩) ∧
    (∀ resp, fetchOracle 0 = .ok resp → resp.ok = false →
        ∃ err : CognitorApiError,
          (request client now endpoint fetchOracle).1 = .error err ∧
          err.statusCode = resp.status) := by
  obtain ⟨t', ht⟩ := checkRateLimit_ok now endpoint client.rateLimitTracker
  refine ⟨?_, ?_, ?_, ?_⟩
  · simp [request, ht]
  · intro oracle2 h2
    simp [request, ht, h2]
  · intro msg hmsg
    simp [request, ht, hmsg]
  · intro resp hresp hok
    refine ⟨httpErrorOf resp, ?_, rfl⟩
    simp [request, ht, hresp, hok]

/-- Witness for C6: with a failing fetch, `request` throws the
`NETWORK_ERROR` `CognitorApiError`. -/
theorem request_no_retries_witness :
    (request ⟨"https://api.example.com", "site1", none, []⟩ 0 "pages"
        (fun _ => .error "boom")).1
      = .error ⟨0, "NETWORK_ERROR", "boom", none⟩ :=
  (request_no_retries ⟨"https://api.example.com", "site1", none, []⟩ 0 "pages"
      (fun _ => .error "boom")).2.2.1 "boom" rfl

/-- C7: the only mutable state `request` carries across calls is the
timestamp map: `baseUrl`, `siteId` and `apiKey` are unchanged, at most the
tracker entry of the requested endpoint changes, and when less than
1000 ms have elapsed since the previous request to that endpoint even the
tracker is unchanged. -/
theorem request_frame (client : CognitorApiClient) (now : Nat) (endpoint : String)
    (fetchOracle : Nat → Except String FetchResponse) :
    ((request client now endpoint fetchOracle).2.1).baseUrl = client.baseUrl ∧
    ((request client now endpoint fetchOracle).2.1).siteId = client.siteId ∧
    ((request client now endpoint fetchOracle).2.1).apiKey = client.apiKey ∧
    (∀ e', e' ≠ endpoint →
        List.lookup e' ((request client now endpoint fetchOracle).2.1).rateLimitTracker
          = List.lookup e' client.rateLimitTracker) ∧
    ((now : Int) - (((List.lookup endpoint client.rateLimitTracker).getD 0 : Nat) : Int) < 1000 →
        ((request client now endpoint fetchOracle).2.1).rateLimitTracker
          = client.rateLimitTracker) := by
  by_cases hlt :
      (now : Int) - (((List.lookup endpoint client.rateLimitTracker).getD 0 : Nat) : Int) < 1000
  · have ht : checkRateLimit now endpoint client.rateLimitTracker
        = .ok client.rateLimitTracker := by
      simp [checkRateLimit, hlt]
    refine ⟨?_, ?_, ?_, ?_, ?_⟩ <;> simp [request, ht]
  · have ht : checkRateLimit now endpoint client.rateLimitTracker
        = .ok (assocSet endpoint now client.rateLimitTracker) := by
      simp [checkRateLimit, hlt]
    refine ⟨?_, ?_, ?_, ?_, ?_⟩
    · simp [request, ht]
    · simp [request, ht]
    · simp [request, ht]
    · intro e' he'
      simp only [request, ht]
      exact lookup_assocSet_ne e' endpoint now client.rateLimitTracker he'
    · intro h
      exact absurd h hlt

/-- Witness for C7: a request within 1000 ms of the previous one leaves
the tracker untouched. -/
theorem request_frame_witness :
    ((request ⟨"https://api.example.com", "site1", none, [("pages", 500)]⟩ 900 "pages"
        (fun _ => .error "down")).2.1).rateLimitTracker = [("pages", 500)] :=
  (request_frame ⟨"https://api.example.com", "site1", none, [("pages", 500)]⟩ 900 "pages"
      (fun _ => .error "down")).2.2.2.2 (by decide)

/-! ## Search service (src/lib/api/search.ts, `SearchService`) -/

/-- `SearchQuery.filters.dateRange` (src/lib/types/cognitor.ts). -/
structure DateRangeT where
  dateFrom : String
  dateTo : String
deriving DecidableEq, Repr

/-- `SearchFilters` (src/lib/types/cognitor.ts lines 149-157). -/
structure SearchFilters where
  category : Option String
  tags : Option (List String)
  contentType : Option String
  dateRange : Option DateRangeT
deriving DecidableEq, Repr

/-- `SearchQuery` (src/lib/types/cognitor.ts lines 142-147). -/
structure SearchQuery where
  query : String
  limit : Option Nat
  offset : Option Nat
  filters : Option SearchFilters
deriving DecidableEq, Repr

/-- A query-string parameter value (`string | number`). -/
inductive ParamVal : Type where
  | s (v : String)
  | n (v : Nat)
deriving DecidableEq, Repr

/-- The `queryParams` object built by `SearchService.search` (search.ts
lines 19-37), in insertion order; falsy (`undefined`, `0`, `''`) values
are skipped exactly where the code's `if` guards skip them. -/
def buildSearchParams (query : SearchQuery) : List (String × ParamVal) :=
  [("q", ParamVal.s query.query)]
  ++ (match query.limit with
      | some l => if l = 0 then [] else [("size", ParamVal.n l)]
      | none => [])
  ++ (match query.offset with
      | some o => if o = 0 then [] else [("page", ParamVal.n (o / jsOrNat query.limit 10 + 1))]
      | none => [])
  ++ (match query.filters with
      | none => []
      | some f =>
        (match f.category with
         | some c => if c = "" then [] else [("category", ParamVal.s c)]
         | none => [])
        ++ (match f.contentType with
            | some c => if c = "" then [] else [("content_type", ParamVal.s c)]
            | none => [])
        ++ (match f.tags with
            | some ts => if ts.length > 0 then [("tags", ParamVal.s (joinSep "," ts))] else []
            | none => [])
        ++ (match f.dateRange with
            | some dr =>
              (if dr.dateFrom = "" then [] else [("date_from", ParamVal.s dr.dateFrom)])
              ++ (if dr.dateTo = "" then [] else [("date_to", ParamVal.s dr.dateTo)])
            | none => []))

/-- The fields of a raw Cognitor search hit that `search` reads
(search.ts lines 53-70). -/
structure RawSearchResult where
  id : Int
  doc_type : String
  title : String
  content : Option String
  description : Option String
  url : Option String
  score : Int
  created_at : String
  keywords : Option String
  highlight : Option String
deriving DecidableEq, Repr

/-- `SearchResult.metadata` as built by `search`. -/
structure SearchResultMetadata where
  contentType : String
  wordCount : Nat
  readTime : Nat
deriving DecidableEq, Repr

/-- `SearchResult` (src/lib/types/cognitor.ts) as built by `search`. -/
structure SearchResult where
  id : String
  type : String
  title : String
  excerpt : String
  url : String
  score : Int
  publishedAt : String
  category : Option String
  tags : List String
  metadata : SearchResultMetadata
  highlight : Option String
deriving DecidableEq, Repr

/-- The per-hit transformation of `search` (search.ts lines 53-70). -/
def transformSearchResult (r : RawSearchResult) : SearchResult :=
  { id := toString r.id
    type := if r.doc_type = "content_element" then "page" else r.doc_type
    title := r.title
    excerpt := jsOrOptStr r.content (jsOrOptStr r.description "")
    url := jsOrOptStr r.url "#"
    score := r.score
    publishedAt := r.created_at
    category := none
    tags := match r.keywords with
      | some k => if k = "" then [] else jsSplitChar ',' k
      | none => []
    metadata :=
      { contentType := r.doc_type
        wordCount := match r.content with
          | some c => if c = "" then 0 else (jsSplitChar ' ' c).length
          | none => 0
        readTime := max 1 (((match r.content with
          | some c => (jsSplitChar ' ' c).length
          | none => 0) + 199) / 200) }
    highlight := r.highlight }

/-- The successful payload shape of the Cognitor search endpoint
(`{ results, total, page, size, total_pages }`). -/
structure RawSearchData where
  results : List RawSearchResult
  total : Int
  page : Int
  size : Int
  total_pages : Int
deriving DecidableEq, Repr

/-- The `CognitorResponse` wrapper `search` receives from
`cognitorApi.get` (`success` flag plus optional payload). -/
structure SearchApiResp where
  success : Bool
  data : Option RawSearchData
deriving DecidableEq, Repr

/-- `Pagination` as built by `search`. -/
structure Pagination where
  page : Int
  limit : Int
  total : Int
  totalPages : Int
  hasNext : Bool
  hasPrev : Bool
deriving DecidableEq, Repr

/-- `PaginatedData<SearchResult>` as built by `search`; the failure
branches build it without a `pagination` object. -/
structure PaginatedSearchData where
  items : List SearchResult
  total : Int
  page : Int
  limit : Int
  pagination : Option Pagination
deriving DecidableEq, Repr

/-- `CognitorResponse<PaginatedData<SearchResult>>` as returned by
`search`. -/
structure SearchResponse where
  data : PaginatedSearchData
  success : Bool
  message : String
deriving DecidableEq, Repr

/-- `SearchService.search` (search.ts lines 18-104), embedded over an API
oracle mapping the query parameters to the outcome of
`cognitorApi.get('search/sites/{siteId}', queryParams)` (`.error msg`
models a thrown exception). -/
def search (query : SearchQuery)
    (api : List (String × ParamVal) → Except String SearchApiResp) : SearchResponse :=
  let fallback : Int → String → SearchResponse := fun _ msg =>
    ⟨⟨[], 0, 1, (jsOrNat query.limit 10 : Int), none⟩, false, msg⟩
  match api (buildSearchParams query) with
  | .error _ => fallback 0 "Search failed"
  | .ok resp =>
    if resp.success then
      match resp.data with
      | some d =>
        ⟨⟨d.results.map transformSearchResult, d.total, d.page, d.size,
          some ⟨d.page, d.size, d.total, d.total_pages,
            decide (d.page < d.total_pages), decide (d.page > 1)⟩⟩,
         true, "Found " ++ toString d.total ++ " results"⟩
      | none => fallback 0 "No results found"
    else fallback 0 "No results found"

/-! ## Suggestions (`SearchService.getSuggestions`) -/

/-- An element of the suggest API's array: a plain string or an object
whose fields the code reads. -/
inductive SuggestItem : Type where
  | strVal (s : String)
  | objVal (id : Option Int) (text : Option String) (title : Option String)
      (stype : Option String) (url : Option String)
deriving DecidableEq, Repr

/-- The suggest API payload: an array, or some non-array value. -/
inductive SuggestData : Type where
  | arr (items : List SuggestItem)
  | notArray
deriving DecidableEq, Repr

/-- The response wrapper `getSuggestions` receives from the API. -/
structure SuggestApiResp where
  success : Bool
  data : Option SuggestData
deriving DecidableEq, Repr

/-- `CognitorResponse<SearchSuggestion[]>` as returned by
`getSuggestions`; the empty-term response carries no `message`. -/
structure SuggestionsResponse where
  data : List SearchSuggestion
  success : Bool
  message : Option String
deriving DecidableEq, Repr

/-- The per-suggestion transformation (search.ts lines 144-149).
`randTok` stands for `Math.random().toString()`, used when the suggestion
has no `id`; a plain-string suggestion becomes its own text.  An object
with neither `text` nor `title` would surface the object itself in JS; it
is embedded as the empty string. -/
def transformSuggestion (randTok : String) : SuggestItem → SearchSuggestion
  | .strVal s => ⟨some randTok, s, "term", none⟩
  | .objVal id text title stype url =>
    ⟨some (match id with | some i => toString i | none => randTok),
     jsOrOptStr text (jsOrOptStr title ""),
     jsOrOptStr stype "term",
     url⟩

/-- The fixed static fallback suggestion list (search.ts lines 116-123). -/
def staticSuggestionList : List SearchSuggestion :=
  [⟨some "1", "steuerberater", "term", none⟩,
   ⟨some "2", "beratung", "term", none⟩,
   ⟨some "3", "österreich", "term", none⟩,
   ⟨some "4", "kontakt", "term", none⟩,
   ⟨some "5", "unternehmen", "term", none⟩,
   ⟨some "6", "service", "term", none⟩]

/-- `getStaticSuggestions` (search.ts lines 115-128): static entries whose
text contains the term case-insensitively, truncated to `limit`. -/
def getStaticSuggestions (term : String) (limit : Nat) : List SearchSuggestion :=
  (staticSuggestionList.filter
    (fun s => jsIncludes (jsToLower s.text) (jsToLower term))).take limit

/-- `SearchService.getSuggestions` (search.ts lines 110-179), embedded
over the outcome of the suggest API call; also returns whether the API
was called.  `randTok` stands for `Math.random().toString()`. -/
def getSuggestions (term : String) (limit : Nat) (randTok : String)
    (api : Except String SuggestApiResp) : SuggestionsResponse × Bool :=
  if jsTrim term = "" then (⟨[], true, none⟩, false)
  else
    let staticResp : SuggestionsResponse × Bool :=
      (⟨getStaticSuggestions term limit, true,
        some (if (getStaticSuggestions term limit).length > 0 then
          "Static suggestions provided" else "No suggestions found")⟩, true)
    match api with
    | .error _ =>
      (⟨getStaticSuggestions term limit, true, some "Fallback suggestions provided"⟩, true)
    | .ok resp =>
      if resp.success then
        match resp.data with
        | some (.arr items) =>
          if items.length > 0 then
            (⟨items.map (transformSuggestion randTok), true,
              some "API suggestions loaded successfully"⟩, true)
          else staticResp
        | _ => staticResp
      else staticResp

/-! ## Theorems: search failure fallback (C3) and suggestions (C4) -/

/-- C3: `search` converts every failure into a user-facing fallback: if
the API call throws or returns an unsuccessful response, `search` returns
(rather than throws) a response with `success = false`, empty items,
`total = 0`, `page = 1` and `limit` equal to `query.limit or 10`. -/
theorem search_failure_fallback (query : SearchQuery)
    (api : List (String × ParamVal) → Except String SearchApiResp)
    (h : (∃ msg, api (buildSearchParams query) = .error msg) ∨
         (∃ r, api (buildSearchParams query) = .ok r ∧ r.success = false)) :
    (search query api).success = false ∧
    (search query api).data.items = [] ∧
    (search query api).data.total = 0 ∧
    (search query api).data.page = 1 ∧
    (search query api).data.limit = (jsOrNat query.limit 10 : Int) := by
  rcases h with ⟨msg, hm⟩ | ⟨r, hr, hs⟩
  · refine ⟨?_, ?_, ?_, ?_, ?_⟩ <;> simp [search, hm]
  · refine ⟨?_, ?_, ?_, ?_, ?_⟩ <;> simp [search, hr, hs]

/-- Witness for C3: a thrown API call yields the fallback response. -/
theorem search_failure_fallback_witness :
    (search ⟨"steuer", some 20, none, none⟩ (fun _ => .error "down")).success = false ∧
    (search ⟨"steuer", some 20, none, none⟩ (fun _ => .error "down")).data.items = [] ∧
    (search ⟨"steuer", some 20, none, none⟩ (fun _ => .error "down")).data.total = 0 ∧
    (search ⟨"steuer", some 20, none, none⟩ (fun _ => .error "down")).data.page = 1 ∧
    (search ⟨"steuer", some 20, none, none⟩ (fun _ => .error "down")).data.limit
      = (jsOrNat (some 20) 10 : Int) :=
  search_failure_fallback ⟨"steuer", some 20, none, none⟩ (fun _ => .error "down")
    (Or.inl ⟨"down", rfl⟩)

/-- C4: `getSuggestions` never surfaces an API failure: a blank term
returns `success = true` with no data and no API call; a non-blank term
whose API call throws or yields an empty or non-array (or unsuccessful or
missing) result returns `success = true` with the static list filtered by
case-insensitive containment of the term, truncated to `limit`. -/
theorem getSuggestions_fallback (term : String) (limit : Nat) (randTok : String)
    (api : Except String SuggestApiResp) :
    (jsTrim term = "" →
      getSuggestions term limit randTok api
        = (⟨[], true, none⟩, false)) ∧
    (jsTrim term ≠ "" →
      ((∃ msg, api = .error msg) ∨
       (∃ r, api = .ok r ∧
          (r.success = false ∨ r.data = none ∨ r.data = some .notArray ∨
            r.data = some (.arr [])))) →
      (getSuggestions term limit randTok api).1.success = true ∧
      (getSuggestions term limit randTok api).1.data
        = (staticSuggestionList.filter
            (fun s => jsIncludes (jsToLower s.text) (jsToLower term))).take limit) := by
  constructor
  · intro h
    simp [getSuggestions, h]
  · intro hne hfail
    rcases hfail with ⟨msg, hm⟩ | ⟨r, hr, hcase⟩
    · subst hm
      constructor <;> simp [getSuggestions, hne, getStaticSuggestions]
    · subst hr
      obtain ⟨rs, rd⟩ := r
      rcases hcase with h1 | h2 | h3 | h4
      · have h1' : rs = false := h1
        subst h1'
        cases rd with
        | none => constructor <;> simp [getSuggestions, hne, getStaticSuggestions]
        | some d =>
          cases d with
          | arr items => constructor <;> simp [getSuggestions, hne, getStaticSuggestions]
          | notArray => constructor <;> simp [getSuggestions, hne, getStaticSuggestions]
      · have h2' : rd = none := h2
        subst h2'
        cases rs <;> constructor <;> simp [getSuggestions, hne, getStaticSuggestions]
      · have h3' : rd = some .notArray := h3
        subst h3'
        cases rs <;> constructor <;> simp [getSuggestions, hne, getStaticSuggestions]
      · have h4' : rd = some (.arr []) := h4
        subst h4'
        cases rs <;> constructor <;> simp [getSuggestions, hne, getStaticSuggestions]

/-- Witness for C4 at term `st` with a throwing API: the static list
filtered to texts containing `st`. -/
theorem getSuggestions_fallback_witness :
    (getSuggestions "st" 5 "0.42" (.error "down")).1.success = true ∧
    (getSuggestions "st" 5 "0.42" (.error "down")).1.data
      = (staticSuggestionList.filter
          (fun s => jsIncludes (jsToLower s.text) (jsToLower "st"))).take 5 :=
  (getSuggestions_fallback "st" 5 "0.42" (.error "down")).2 (by decide)
    (Or.inl ⟨"down", rfl⟩)

/-! ## Content-reference resolver (src/unnamed/part_005,
`resolveContentReferences`) -/

/-- An element of a candidate reference array: a number, a string, an
object (with the `title` field the code inspects), or some other value. -/
inductive RefItem : Type where
  | num (n : Int)
  | str (s : String)
  | obj (title : Option String)
  | other
deriving DecidableEq, Repr

/-- A value of a field of the `data` record the resolver reads: an array
of reference items or a string. -/
inductive DataVal : Type where
  | arr (items : List RefItem)
  | str (s : String)
deriving DecidableEq, Repr

/-- JS truthiness of a `data` field value (arrays are always truthy,
strings iff non-empty). -/
def dvTruthy : DataVal → Bool
  | .arr _ => true
  | .str s => s ≠ ""

/-- The fixed `referencePatterns` field-name list (part_005 lines
349-354). -/
def referencePatterns : List String :=
  ["references", "refs", "items", "content_items",
   "news_ids", "article_ids", "post_ids", "page_ids",
   "news", "articles", "posts", "pages",
   "content", "related_content"]

/-- The first-matching-pattern loop (part_005 lines 356-365): the first
field in pattern order whose value is a (truthy) array, `[]` if none. -/
def firstRefData : List String → List (String × DataVal) → List RefItem
  | [], _ => []
  | p :: ps, data =>
    match List.lookup p data with
    | some (.arr l) => l
    | _ => firstRefData ps data

/-- `typeof item === 'object' && item.title` (part_005 line 383): an
object with a truthy `title`. -/
def isResolvedObj : RefItem → Bool
  | .obj (some t) => t ≠ ""
  | _ => false

/-- The `else`-branches of the search-query derivation when no content
type keyword matches (part_005 lines 397-399). -/
def categoryOrDefault (data : List (String × DataVal)) : DataVal :=
  match List.lookup "category" data with
  | some w => if dvTruthy w then w else .str "content"
  | none => .str "content"

/-- The search-query derivation (part_005 lines 390-400): keyword of the
content type, else a truthy `data.search_term`, else a truthy
`data.category`, else `'content'`. -/
def resolveSearchQuery (data : List (String × DataVal)) (contentType : String) : DataVal :=
  if jsIncludes contentType "news" then .str "news"
  else if jsIncludes contentType "article" then .str "article"
  else if jsIncludes contentType "post" then .str "post"
  else
    match List.lookup "search_term" data with
    | some v => if dvTruthy v then v else categoryOrDefault data
    | none => categoryOrDefault data

/-- The `success`/`items` shape of the search and pages responses the
resolver inspects. -/
structure ApiItemsResp where
  success : Bool
  items : List RefItem
deriving DecidableEq, Repr

/-- The API calls the resolver issues. -/
structure ResolveTrace where
  searchCall : Option (DataVal × Nat)
  pagesCall : Bool
deriving DecidableEq, Repr

/-- `resolveContentReferences` (part_005 lines 340-435), embedded over
oracles for `searchService.search` (by query and limit) and
`pagesService.getPages({status:'published', limit})`.  The
numeric-ID check (lines 373-381) only logs and is behaviourally inert, so
it has no counterpart here.  A pages-API exception is rethrown by the
outer `catch` (`.error`); a search exception is swallowed by the inner
`catch`. -/
def resolveContentReferences (data : List (String × DataVal)) (contentType : String)
    (limit : Option Nat)
    (searchApi : DataVal → Nat → Except String ApiItemsResp)
    (pagesApi : Except String ApiItemsResp) :
    Except String (List RefItem × ResolveTrace) :=
  let referenceData := firstRefData referencePatterns data
  if 0 < referenceData.length ∧ referenceData.any isResolvedObj then
    .ok (referenceData.take (jsOrNat limit 10), ⟨none, false⟩)
  else
    let q := resolveSearchQuery data contentType
    let lim := jsOrNat limit 10
    let afterSearch : Option (List RefItem) :=
      match searchApi q lim with
      | .ok r => if r.success = true ∧ 0 < r.items.length then some r.items else none
      | .error _ => none
    match afterSearch with
    | some items => .ok (items, ⟨some (q, lim), false⟩)
    | none =>
      match pagesApi with
      | .error e => .error e
      | .ok pr =>
        if pr.success = true ∧ 0 < pr.items.length then .ok (pr.items, ⟨some (q, lim), true⟩)
        else .ok ([], ⟨some (q, lim), true⟩)

/-! ## Inbound proxy routes (src/app/api/search/route.ts and
src/app/api/search/suggestions/route.ts) -/

/-- Parsing an all-digit run to a number. -/
def parseDigits (cs : List Char) : Option Nat :=
  let ds := cs.takeWhile Char.isDigit
  if ds.isEmpty then none
  else some (ds.foldl (fun a c => a * 10 + (c.toNat - 48)) 0)

/-- JS `parseInt(s)` (base 10): skip leading whitespace, optional sign,
longest digit run; `none` models `NaN`. -/
def parseIntJS (s : String) : Option Int :=
  match s.data.dropWhile isJsWhitespace with
  | '-' :: rest => (parseDigits rest).map (fun n => -(n : Int))
  | '+' :: rest => (parseDigits rest).map (fun n => (n : Int))
  | cs => (parseDigits cs).map (fun n => (n : Int))

/-- JS `(page - 1) * limit` with `NaN` (`none`) propagation. -/
def nanSub1Mul (page limit : Option Int) : Option Int :=
  match page, limit with
  | some p, some l => some ((p - 1) * l)
  | _, _ => none

/-- The argument object the search route passes to
`searchService.search` (route.ts lines 23-31). -/
structure RouteSearchCall where
  query : String
  limit : Option Int
  offset : Option Int
  category : Option String
  tags : Option (List String)
deriving DecidableEq, Repr

/-- An error response (`NextResponse.json({error}, {status})`). -/
structure RouteError where
  status : Nat
  message : String
deriving DecidableEq, Repr

/-- The parameter handling of `GET /api/search` (route.ts lines 8-33):
from the inbound query parameters (absent = `none`) to either the 400
error or the argument object passed to `searchService.search`. -/
def searchRouteForward (q page limit category tags : Option String) :
    Except RouteError RouteSearchCall :=
  let pageV := parseIntJS (jsOrOptStr page "1")
  let limitV := parseIntJS (jsOrOptStr limit "10")
  let categoryV : Option String :=
    match category with
    | some c => if c = "" then none else some c
    | none => none
  let tagsV : Option (List String) :=
    match tags with
    | some t => some (jsSplitChar ',' t)
    | none => none
  match q with
  | none => .error ⟨400, "Query parameter is required"⟩
  | some s =>
    if jsTrim s = "" then .error ⟨400, "Query parameter is required"⟩
    else .ok ⟨jsTrim s, limitV, nanSub1Mul pageV limitV, categoryV, tagsV⟩

/-- The argument pair the suggestions route passes to
`searchService.getSuggestions` (suggestions/route.ts line 22). -/
structure SuggestRouteCall where
  term : String
  limit : Option Int
deriving DecidableEq, Repr

/-- The parameter handling of `GET /api/search/suggestions`
(suggestions/route.ts lines 8-22). -/
def suggestionsRouteForward (q limit : Option String) :
    Except RouteError SuggestRouteCall :=
  let limitV := parseIntJS (jsOrOptStr limit "5")
  match q with
  | none => .error ⟨400, "Query parameter is required"⟩
  | some s =>
    if jsTrim s = "" then .error ⟨400, "Query parameter is required"⟩
    else .ok ⟨jsTrim s, limitV⟩

/-! ## Theorems: reference-resolver heuristics (C1) -/

/-- C1: `resolveContentReferences` is the ordered heuristic sequence: if
the first field-pattern array contains an object with a (truthy) title it
returns its first `limit` (default 10) entries with no API call;
otherwise it searches with the query derived by `resolveSearchQuery` and
returns its items if any; if the search throws or yields no items it
falls back to the latest published pages; and if those also yield nothing
it returns the empty list. -/
theorem resolveContentReferences_heuristics (data : List (String × DataVal))
    (contentType : String) (limit : Option Nat)
    (searchApi : DataVal → Nat → Except String ApiItemsResp)
    (pagesApi : Except String ApiItemsResp) :
    ((firstRefData referencePatterns data).any isResolvedObj = true →
      resolveContentReferences data contentType limit searchApi pagesApi
        = .ok ((firstRefData referencePatterns data).take (jsOrNat limit 10),
            ⟨none, false⟩)) ∧
    ((firstRefData referencePatterns data).any isResolvedObj ≠ true →
      (∀ r, searchApi (resolveSearchQuery data contentType) (jsOrNat limit 10) = .ok r →
          r.success = true → r.items ≠ [] →
          resolveContentReferences data contentType limit searchApi pagesApi
            = .ok (r.items,
                ⟨some (resolveSearchQuery data contentType, jsOrNat limit 10), false⟩)) ∧
      (((∃ m, searchApi (resolveSearchQuery data contentType) (jsOrNat limit 10)
            = .error m) ∨
        (∃ r, searchApi (resolveSearchQuery data contentType) (jsOrNat limit 10) = .ok r ∧
            (r.success = false ∨ r.items = []))) →
        (∀ pr, pagesApi = .ok pr → pr.success = true → pr.items ≠ [] →
            resolveContentReferences data contentType limit searchApi pagesApi
              = .ok (pr.items,
                  ⟨some (resolveSearchQuery data contentType, jsOrNat limit 10), true⟩)) ∧
        (∀ pr, pagesApi = .ok pr → pr.success = false ∨ pr.items = [] →
            resolveContentReferences data contentType limit searchApi pagesApi
              = .ok ([],
                  ⟨some (resolveSearchQuery data contentType, jsOrNat limit 10), true⟩)))) := by
  constructor
  · intro hany
    have hpos : 0 < (firstRefData referencePatterns data).length := by
      rcases List.any_eq_true.mp hany with ⟨x, hx, _⟩
      exact List.length_pos.mpr (List.ne_nil_of_mem hx)
    simp [resolveContentReferences, hpos, hany]
  · intro hnot
    have hcond : ¬ (0 < (firstRefData referencePatterns data).length ∧
        (firstRefData referencePatterns data).any isResolvedObj = true) := by
      intro hc
      exact hnot hc.2
    have hAfter : ∀ (sOut : Except String ApiItemsResp),
        ((∃ m, sOut = .error m) ∨ (∃ r, sOut = .ok r ∧ (r.success = false ∨ r.items = []))) →
        (match sOut with
          | .ok r => if r.success = true ∧ 0 < r.items.length then some r.items else none
          | .error _ => none) = none := by
      intro sOut hf
      rcases hf with ⟨m, hm⟩ | ⟨r, hr, hcase⟩
      · rw [hm]
      · rw [hr]
        rcases hcase with h | h <;> simp [h]
    constructor
    · intro r hr hs hi
      have hlen : 0 < r.items.length := List.length_pos.mpr hi
      simp only [resolveContentReferences, if_neg hcond]
      rw [hr]
      simp [hs, hlen]
    · intro hfail
      have hA := hAfter _ hfail
      constructor
      · intro pr hpr hps hpi
        have hlen : 0 < pr.items.length := List.length_pos.mpr hpi
        simp only [resolveContentReferences, if_neg hcond]
        rw [hA, hpr]
        simp [hps, hlen]
      · intro pr hpr hcase
        simp only [resolveContentReferences, if_neg hcond]
        rw [hA, hpr]
        rcases hcase with h | h <;> simp [h]

/-- Witness for C1: a pre-resolved object array is returned directly,
with no search and no pages call, even though both oracles would throw. -/
theorem resolveContentReferences_heuristics_witness :
    resolveContentReferences
        [("items", DataVal.arr [RefItem.obj (some "T"), RefItem.num 3])]
        "news_block" none (fun _ _ => .error "noapi") (.error "noapi")
      = .ok ([RefItem.obj (some "T"), RefItem.num 3], ⟨none, false⟩) :=
  (resolveContentReferences_heuristics
      [("items", DataVal.arr [RefItem.obj (some "T"), RefItem.num 3])]
      "news_block" none (fun _ _ => .error "noapi") (.error "noapi")).1 (by decide)

/-! ## Theorems: inbound proxy routes (C2) -/

/-- C2 is false as stated: the search route does not forward its query
parameter unchanged — it trims it (and converts `page` to an offset and
splits `tags`).  At the concrete inbound request `q = " foo "` the value
forwarded to `searchService.search` is `"foo"`, not `" foo "`. -/
theorem searchRoute_not_unchanged :
    ∃ call, searchRouteForward (some " foo ") none none none none = .ok call ∧
      call.query ≠ " foo " := by
  refine ⟨⟨"foo", some 10, some 0, none, none⟩, rfl, by decide⟩

/-- C2 (amended): the two routes forward their parameters after fixed
normalisation: a missing or blank `q` yields a 400 without calling the
service; otherwise the search route forwards the trimmed query,
`parseInt` of `limit` (default 10), `offset = (page - 1) * limit`
(`page` defaulting to 1), `category` as given (absent stays absent) and
`tags` split on commas; the suggestions route forwards the trimmed term
and `parseInt` of `limit` (default 5). -/
theorem routes_forward_normalized (q page limit category tags qs ls : Option String) :
    (q = none →
        searchRouteForward q page limit category tags
          = .error ⟨400, "Query parameter is required"⟩) ∧
    (∀ s, q = some s → jsTrim s = "" →
        searchRouteForward q page limit category tags
          = .error ⟨400, "Query parameter is required"⟩) ∧
    (∀ s, q = some s → jsTrim s ≠ "" →
        searchRouteForward q page limit category tags
          = .ok ⟨jsTrim s,
              parseIntJS (jsOrOptStr limit "10"),
              nanSub1Mul (parseIntJS (jsOrOptStr page "1"))
                (parseIntJS (jsOrOptStr limit "10")),
              (match category with
               | some c => if c = "" then none else some c
               | none => none),
              (match tags with
               | some t => some (jsSplitChar ',' t)
               | none => none)⟩) ∧
    (qs = none →
        suggestionsRouteForward qs ls = .error ⟨400, "Query parameter is required"⟩) ∧
    (∀ s, qs = some s → jsTrim s = "" →
        suggestionsRouteForward qs ls = .error ⟨400, "Query parameter is required"⟩) ∧
    (∀ s, qs = some s → jsTrim s ≠ "" →
        suggestionsRouteForward qs ls
          = .ok ⟨jsTrim s, parseIntJS (jsOrOptStr ls "5")⟩) := by
  refine ⟨?_, ?_, ?_, ?_, ?_, ?_⟩
  · intro h
    subst h
    rfl
  · intro s hq ht
    subst hq
    simp [searchRouteForward, ht]
  · intro s hq ht
    subst hq
    simp [searchRouteForward, ht]
  · intro h
    subst h
    rfl
  · intro s hq ht
    subst hq
    simp [suggestionsRouteForward, ht]
  · intro s hq ht
    subst hq
    simp [suggestionsRouteForward, ht]

/-- Witness for the amended C2 at `q = " foo "`. -/
theorem routes_forward_normalized_witness :
    searchRouteForward (some " foo ") none none none none
      = .ok ⟨jsTrim " foo ",
          parseIntJS (jsOrOptStr none "10"),
          nanSub1Mul (parseIntJS (jsOrOptStr none "1"))
            (parseIntJS (jsOrOptStr none "10")),
          none, none⟩ :=
  (routes_forward_normalized (some " foo ") none none none none none none).2.2.1
    " foo " rfl (by decide)
